import Mathlib

/-!
Verification of the data-processing job in `src/jobs/data_processing_job.py`.

The job is a linear pipeline over a list of employee records:
generation (`create_sample_data`), a key-value aggregation path
(`apply_rdd_transformations`), a tabular aggregation path
(`apply_dataframe_transformations`), and a sink (`save_results`).
The embedding below models records as a Lean structure, the RDD as a
`List`, `reduceByKey` as a per-key left fold in input order, Python's
float division on integers as exact division in `ℚ`, and the random
number generator as an explicit stream `g : ℕ → ℕ` of raw samples from
which `random.randint`/`random.choice` draw uniformly by reduction
modulo the size of their range.
-/

namespace DataProcessingJob

/-- A generated employee record `(id, name, age, salary, department)`,
as produced by `generate_record` in `create_sample_data`. -/
structure Record where
  id : ℤ
  name : String
  age : ℤ
  salary : ℤ
  department : String
deriving DecidableEq, Repr

/-- The fixed 5-element department domain of `create_sample_data`. -/
def departments : List String := ["Engineering", "Sales", "Marketing", "HR", "Finance"]

/-- The fixed 8-element name domain of `create_sample_data`. -/
def names : List String := ["Alice", "Bob", "Charlie", "Diana", "Eve", "Frank", "Grace", "Henry"]

/-- Model of Python's `random.randint(lo, hi)`: both endpoints inclusive.
The raw sample `s` is reduced into the range `[lo, hi]`. -/
def randint (lo hi : ℕ) (s : ℕ) : ℕ := lo + s % (hi - lo + 1)

/-- Model of Python's `random.choice(xs)`: the raw sample `s` picks an
index into `xs`. -/
def choice (xs : List String) (s : ℕ) : String := xs.getD (s % xs.length) ""

/-- Embedding of `generate_record` inside `create_sample_data`: record
number `i` consumes the five raw samples `g (5*i) .. g (5*i+4)` in the
order the Python code draws them (id, name, age, salary, department). -/
def generate_record (g : ℕ → ℕ) (i : ℕ) : Record :=
  { id := (randint 1 10000 (g (5 * i) : ℕ) : ℤ)
  , name := choice names (g (5 * i + 1))
  , age := (randint 22 65 (g (5 * i + 2)) : ℤ)
  , salary := (randint 30000 150000 (g (5 * i + 3)) : ℤ)
  , department := choice departments (g (5 * i + 4)) }

/-- Embedding of `create_sample_data`: the list comprehension
`[generate_record() for _ in range(num_rows)]`.  For `num_rows ≥ 1` the
subsequent `rdd.toDF` call succeeds and the produced dataset is exactly
this list, so downstream stages consume it directly. -/
def create_sample_data (g : ℕ → ℕ) (num_rows : ℕ) : List Record :=
  (List.range num_rows).map (generate_record g)

/-- Model of `rdd.toDF([...])` on the parallelized record list: schema
inference samples the first row of the RDD and raises
`ValueError("RDD is empty")` when the RDD has no rows; otherwise it
yields the DataFrame holding exactly these rows under the five named
columns. -/
def toDF (rows : List Record) : Except String (List Record) :=
  if rows = [] then Except.error "RDD is empty" else Except.ok rows

/-- Embedding of `create_sample_data` over arbitrary integer row counts,
with Python's exception channel made explicit as `Except`: the list
comprehension over `range(num_rows)` (empty whenever `num_rows ≤ 0`)
followed by the `toDF` conversion, whose schema inference fails on an
empty RDD. -/
def create_sample_data_int (g : ℕ → ℕ) (num_rows : ℤ) : Except String (List Record) :=
  toDF ((List.range num_rows.toNat).map (generate_record g))

/-! ### Key-value (RDD) aggregation path -/

/-- The values carried by key `k` in a keyed list, in input order.
This is the multiset of values `reduceByKey` combines for `k`. -/
def keyValues {K V : Type} [DecidableEq K] (l : List (K × V)) (k : K) : List V :=
  (l.filter (fun p => p.1 = k)).map Prod.snd

/-- Model of Spark's `reduceByKey f`: for each key present in the input,
fold its values with `f`; a key with no occurrences is absent from the
result.  The canonical combining order is the left-to-right input order;
independence from that choice for the job's combiner is proved below. -/
def reduceByKey {K V : Type} [DecidableEq K] (f : V → V → V) (l : List (K × V)) (k : K) :
    Option V :=
  match keyValues l k with
  | [] => none
  | v :: vs => some (vs.foldl f v)

/-- Model of Spark's `mapValues`. -/
def mapValues {K V W : Type} (f : V → W) (l : List (K × V)) : List (K × W) :=
  l.map (fun p => (p.1, f p.2))

/-- The pairwise combiner `lambda x, y: (x[0] + y[0], x[1] + y[1])` of
`apply_rdd_transformations`. -/
def combine (x y : ℤ × ℤ) : ℤ × ℤ := (x.1 + y.1, x.2 + y.2)

/-- Merging of two optional partial per-key aggregates, as when partial
results from two partitions of the input are combined. -/
def mergeOpt {V : Type} (f : V → V → V) : Option V → Option V → Option V
  | none, b => b
  | some x, none => some x
  | some x, some y => some (f x y)

/-- Canonical per-key value of the job's `reduceByKey combine` stage: for
a key present in the input, the componentwise sum of its `(sum, count)`
contributions; `none` for an absent key.  Used to prove the combining
order irrelevant. -/
def canonAgg {K : Type} [DecidableEq K] (l : List (K × (ℤ × ℤ))) (k : K) : Option (ℤ × ℤ) :=
  if keyValues l k = [] then none
  else some (((keyValues l k).map Prod.fst).sum, ((keyValues l k).map Prod.snd).sum)

/-- Stage 1 of `apply_rdd_transformations`: the high-salary filter
`df.rdd.filter(lambda row: row.salary > 50000)`; only its count is logged. -/
def high_salary_rdd (df : List Record) : List Record :=
  df.filter (fun r => 50000 < r.salary)

/-- Stage 2 of `apply_rdd_transformations`: `(department, salary)` pairs. -/
def dept_salary_rdd (df : List Record) : List (String × ℤ) :=
  df.map (fun r => (r.department, r.salary))

/-- Stage 3 of `apply_rdd_transformations`: average salary by department,
via `mapValues (salary, 1)`, `reduceByKey` with pairwise addition, and a
finalizing `mapValues (sum / count)` (Python float division, modelled
exactly in `ℚ`). -/
def dept_avg_salary (df : List Record) (k : String) : Option ℚ :=
  (reduceByKey combine (mapValues (fun s => (s, (1 : ℤ))) (dept_salary_rdd df)) k).map
    (fun x => (x.1 : ℚ) / (x.2 : ℚ))

/-- The age-band lambda of stage 4 of `apply_rdd_transformations`:
`"Young" if row.age < 30 else "Middle" if row.age < 50 else "Senior"`. -/
def age_band (a : ℤ) : String :=
  if a < 30 then "Young" else if a < 50 then "Middle" else "Senior"

/-- Stage 4 of `apply_rdd_transformations`: `(age band, salary)` pairs. -/
def age_groups_rdd (df : List Record) : List (String × ℤ) :=
  df.map (fun r => (age_band r.age, r.salary))

/-- Stage 4 continued: per age band, `(avg_salary, count)` via the same
`mapValues`/`reduceByKey`/`mapValues` pattern. -/
def age_group_stats (df : List Record) (k : String) : Option (ℚ × ℤ) :=
  (reduceByKey combine (mapValues (fun s => (s, (1 : ℤ))) (age_groups_rdd df)) k).map
    (fun x => ((x.1 : ℚ) / (x.2 : ℚ), x.2))

/-- What `apply_rdd_transformations` produces: the logged high-salary
count and the two aggregate results it returns. -/
structure RddResults where
  high_salary_count : ℕ
  dept_avg : String → Option ℚ
  age_stats : String → Option (ℚ × ℤ)

/-- Embedding of `apply_rdd_transformations`: the filter stage feeds only
the logged count; both aggregates are computed from the full input `df`. -/
def apply_rdd_transformations (df : List Record) : RddResults :=
  { high_salary_count := (high_salary_rdd df).length
  , dept_avg := dept_avg_salary df
  , age_stats := age_group_stats df }

/-- A variant of `apply_rdd_transformations` in which the filter stage
runs with an arbitrary predicate `p`; used to state that the filter
stage feeds nothing but the logged count. -/
def apply_rdd_transformations_with (p : Record → Bool) (df : List Record) : RddResults :=
  { high_salary_count := (df.filter p).length
  , dept_avg := dept_avg_salary df
  , age_stats := age_group_stats df }

/-! ### Tabular (DataFrame) aggregation path -/

/-- The `age_group` column expression of `apply_dataframe_transformations`:
`when(age < 30, "Young").when(age < 50, "Middle").otherwise("Senior")`. -/
def age_group_when (a : ℤ) : String :=
  if a < 30 then "Young" else if a < 50 then "Middle" else "Senior"

/-- The `salary_category` column expression of
`apply_dataframe_transformations`:
`when(salary < 50000, "Low").when(salary < 100000, "Medium").otherwise("High")`. -/
def salary_category_when (s : ℤ) : String :=
  if s < 50000 then "Low" else if s < 100000 then "Medium" else "High"

/-- A row of `df_with_features`: the five original columns plus the two
computed columns `age_group` and `salary_category`. -/
structure RecordF where
  id : ℤ
  name : String
  age : ℤ
  salary : ℤ
  department : String
  age_group : String
  salary_category : String
deriving DecidableEq, Repr

/-- The per-row effect of the two `withColumn` calls. -/
def add_features (r : Record) : RecordF :=
  { id := r.id, name := r.name, age := r.age, salary := r.salary
  , department := r.department
  , age_group := age_group_when r.age
  , salary_category := salary_category_when r.salary }

/-- `df_with_features` of `apply_dataframe_transformations`. -/
def with_features (df : List Record) : List RecordF :=
  df.map add_features

/-- The group of rows of `df_with_features` with the given department,
as materialized by `groupBy("department")`. -/
def dept_rows (df : List Record) (d : String) : List RecordF :=
  (with_features df).filter (fun r => r.department = d)

/-- `dept_stats` of `apply_dataframe_transformations`: per department
present in the input, `(employee_count, avg_salary, avg_age)`; absent
departments yield no row. -/
def dept_stats (df : List Record) (d : String) : Option (ℕ × ℚ × ℚ) :=
  if (dept_rows df d).length = 0 then none
  else some ((dept_rows df d).length,
    (((dept_rows df d).map (fun r => r.salary)).sum : ℚ) / ((dept_rows df d).length : ℚ),
    (((dept_rows df d).map (fun r => r.age)).sum : ℚ) / ((dept_rows df d).length : ℚ))

/-- The group of rows of `df_with_features` with the given `age_group`
value, as materialized by `groupBy("age_group")`. -/
def age_rows (df : List Record) (b : String) : List RecordF :=
  (with_features df).filter (fun r => r.age_group = b)

/-- `age_stats` of `apply_dataframe_transformations`: per age band
present in the input, `(count, avg_salary)`. -/
def age_stats_df (df : List Record) (b : String) : Option (ℕ × ℚ) :=
  if (age_rows df b).length = 0 then none
  else some ((age_rows df b).length,
    (((age_rows df b).map (fun r => r.salary)).sum : ℚ) / ((age_rows df b).length : ℚ))

/-- Embedding of `apply_dataframe_transformations`: returns the augmented
record set and the two statistics tables — exactly the three result sets
`main` passes to `save_results`. -/
def apply_dataframe_transformations (df : List Record) :
    List RecordF × (String → Option (ℕ × ℚ × ℚ)) × (String → Option (ℕ × ℚ)) :=
  (with_features df, dept_stats df, age_stats_df df)

/-! ### The concrete example dataset of the specification -/

/-- The three-record example input from the specification. -/
def example_df : List Record :=
  [ { id := 1, name := "A", age := 25, salary := 40000, department := "Eng" }
  , { id := 2, name := "B", age := 35, salary := 60000, department := "Eng" }
  , { id := 3, name := "C", age := 28, salary := 80000, department := "Sales" } ]

/-! ### Helper lemmas -/

theorem randint_bounds (lo hi s : ℕ) (h : lo ≤ hi) :
    lo ≤ randint lo hi s ∧ randint lo hi s ≤ hi := by
  unfold randint
  have h2 : s % (hi - lo + 1) < hi - lo + 1 := Nat.mod_lt _ (by omega)
  omega

theorem choice_mem (xs : List String) (hx : xs ≠ []) (s : ℕ) : choice xs s ∈ xs := by
  unfold choice
  have hlen : 0 < xs.length := List.length_pos.mpr hx
  have h : s % xs.length < xs.length := Nat.mod_lt _ hlen
  rw [List.getD_eq_getElem?_getD, List.getElem?_eq_getElem h]
  exact List.getElem_mem h

theorem combine_assoc (x y z : ℤ × ℤ) : combine (combine x y) z = combine x (combine y z) := by
  simp only [combine]
  rw [Prod.ext_iff]
  constructor <;> ring

theorem foldl_combine (vs : List (ℤ × ℤ)) : ∀ acc : ℤ × ℤ,
    vs.foldl combine acc = (acc.1 + (vs.map Prod.fst).sum, acc.2 + (vs.map Prod.snd).sum) := by
  induction vs with
  | nil => intro acc; simp
  | cons v vs ih =>
      intro acc
      rw [List.foldl_cons, ih (combine acc v)]
      simp only [combine, List.map_cons, List.sum_cons]
      rw [Prod.ext_iff]
      constructor <;> dsimp <;> ring

theorem reduceByKey_combine_eq_canonAgg {K : Type} [DecidableEq K]
    (l : List (K × (ℤ × ℤ))) (k : K) :
    reduceByKey combine l k = canonAgg l k := by
  unfold reduceByKey canonAgg
  cases h : keyValues l k with
  | nil => simp
  | cons v vs => simp [foldl_combine vs v]

theorem keyValues_append {K V : Type} [DecidableEq K] (l1 l2 : List (K × V)) (k : K) :
    keyValues (l1 ++ l2) k = keyValues l1 k ++ keyValues l2 k := by
  simp [keyValues, List.filter_append]

theorem keyValues_perm {K V : Type} [DecidableEq K] {l1 l2 : List (K × V)}
    (h : l1.Perm l2) (k : K) : (keyValues l1 k).Perm (keyValues l2 k) :=
  (h.filter _).map _

theorem keyValues_mapValues {K V W : Type} [DecidableEq K] (f : V → W)
    (l : List (K × V)) (k : K) :
    keyValues (mapValues f l) k = (keyValues l k).map f := by
  simp [keyValues, mapValues, List.filter_map, List.map_map, Function.comp_def]

theorem keyValues_map_key_val {α K V : Type} [DecidableEq K] (key : α → K) (val : α → V)
    (l : List α) (k : K) :
    keyValues (l.map (fun a => (key a, val a))) k = (l.filter (fun a => key a = k)).map val := by
  simp [keyValues, List.filter_map, List.map_map, Function.comp_def]

theorem mergeOpt_none_right {V : Type} (f : V → V → V) (a : Option V) :
    mergeOpt f a none = a := by
  cases a <;> rfl

theorem mergeOpt_assoc {V : Type} (f : V → V → V)
    (hf : ∀ x y z, f (f x y) z = f x (f y z)) (a b c : Option V) :
    mergeOpt f (mergeOpt f a b) c = mergeOpt f a (mergeOpt f b c) := by
  cases a <;> cases b <;> cases c <;> simp [mergeOpt, hf]

theorem foldl_mergeOpt {V : Type} (f : V → V → V)
    (hf : ∀ x y z, f (f x y) z = f x (f y z)) (xs : List (Option V)) : ∀ acc : Option V,
    xs.foldl (mergeOpt f) acc = mergeOpt f acc (xs.foldl (mergeOpt f) none) := by
  induction xs with
  | nil => intro acc; simp [mergeOpt_none_right]
  | cons x xs ih =>
      intro acc
      rw [List.foldl_cons, List.foldl_cons, ih (mergeOpt f acc x), ih (mergeOpt f none x)]
      have hx : mergeOpt f none x = x := rfl
      rw [hx, mergeOpt_assoc f hf]

theorem canonAgg_append {K : Type} [DecidableEq K] (l1 l2 : List (K × (ℤ × ℤ))) (k : K) :
    canonAgg (l1 ++ l2) k = mergeOpt combine (canonAgg l1 k) (canonAgg l2 k) := by
  unfold canonAgg
  rw [keyValues_append]
  cases h1 : keyValues l1 k with
  | nil => simp [mergeOpt]
  | cons v vs =>
      cases h2 : keyValues l2 k with
      | nil => simp [mergeOpt]
      | cons w ws =>
          simp only [List.append_eq, List.cons_append, List.map_append, List.sum_append,
            mergeOpt, combine, reduceCtorEq, ite_false, List.map_cons, List.sum_cons]
          simp only [Option.some.injEq, Prod.mk.injEq]
          constructor <;> ring

theorem canonAgg_perm {K : Type} [DecidableEq K] {l1 l2 : List (K × (ℤ × ℤ))}
    (h : l1.Perm l2) (k : K) : canonAgg l1 k = canonAgg l2 k := by
  have hp := keyValues_perm h k
  have hlen := hp.length_eq
  have hfst := (hp.map Prod.fst).sum_eq
  have hsnd := (hp.map Prod.snd).sum_eq
  unfold canonAgg
  by_cases hc : keyValues l1 k = []
  · have hc2 : keyValues l2 k = [] := by
      rw [← List.length_eq_zero, ← hlen, List.length_eq_zero]; exact hc
    rw [if_pos hc, if_pos hc2]
  · have hc2 : ¬ keyValues l2 k = [] := by
      intro hh
      exact hc (by rw [← List.length_eq_zero, hlen, List.length_eq_zero]; exact hh)
    rw [if_neg hc, if_neg hc2, hfst, hsnd]

theorem sum_map_ones {V : Type} (vs : List V) :
    (vs.map (fun v => (1 : ℤ))).sum = vs.length := by
  induction vs with
  | nil => simp
  | cons v vs ih => simp [ih]; ring

/-! ### Claim theorems -/

/-- Claim C2: for every record count `N ≥ 1` the generator produces
exactly `N` records, each with `id ∈ [1,10000]`, `age ∈ [22,65]`,
`salary ∈ [30000,150000]`, name in the fixed 8-element name domain and
department in the fixed 5-element department domain, whatever raw
randomness stream `g` drives the sampling. -/
theorem C2_generator_count_and_bounds (g : ℕ → ℕ) (N : ℕ) (hN : 1 ≤ N) :
    (create_sample_data g N).length = N ∧
    ∀ r ∈ create_sample_data g N,
      1 ≤ r.id ∧ r.id ≤ 10000 ∧ r.name ∈ names ∧ 22 ≤ r.age ∧ r.age ≤ 65 ∧
      30000 ≤ r.salary ∧ r.salary ≤ 150000 ∧ r.department ∈ departments := by
  constructor
  · simp [create_sample_data]
  · intro r hr
    simp only [create_sample_data, List.mem_map] at hr
    obtain ⟨i, _, rfl⟩ := hr
    have h1 := randint_bounds 1 10000 (g (5 * i)) (by omega)
    have h2 := randint_bounds 22 65 (g (5 * i + 2)) (by omega)
    have h3 := randint_bounds 30000 150000 (g (5 * i + 3)) (by omega)
    refine ⟨?_, ?_, choice_mem names (by simp [names]) _, ?_, ?_, ?_, ?_,
      choice_mem departments (by simp [departments]) _⟩ <;>
      simp only [generate_record] <;> omega

/-- Witness for C2 at the concrete stream `fun x => 0` and `N = 1`. -/
theorem C2_generator_count_and_bounds_witness :
    1 ≤ 1 ∧
    ((create_sample_data (fun x => 0) 1).length = 1 ∧
      ∀ r ∈ create_sample_data (fun x => 0) 1,
        1 ≤ r.id ∧ r.id ≤ 10000 ∧ r.name ∈ names ∧ 22 ≤ r.age ∧ r.age ≤ 65 ∧
        30000 ≤ r.salary ∧ r.salary ≤ 150000 ∧ r.department ∈ departments) :=
  ⟨Nat.le_refl 1, C2_generator_count_and_bounds (fun x => 0) 1 (Nat.le_refl 1)⟩

/-- Claim C3: the age-band and salary-category labelings are
deterministic total functions (they are Lean functions), the RDD-path
lambda and the DataFrame `when`-chain agree, and each label corresponds
to exactly one threshold range, so every integer age (resp. salary)
receives exactly one of the three labels. -/
theorem C3_labels_total_nonoverlapping (a s : ℤ) :
    age_band a = age_group_when a ∧
    (age_group_when a = "Young" ∨ age_group_when a = "Middle" ∨ age_group_when a = "Senior") ∧
    (age_group_when a = "Young" ↔ a < 30) ∧
    (age_group_when a = "Middle" ↔ 30 ≤ a ∧ a < 50) ∧
    (age_group_when a = "Senior" ↔ 50 ≤ a) ∧
    (salary_category_when s = "Low" ∨ salary_category_when s = "Medium" ∨
      salary_category_when s = "High") ∧
    (salary_category_when s = "Low" ↔ s < 50000) ∧
    (salary_category_when s = "Medium" ↔ 50000 ≤ s ∧ s < 100000) ∧
    (salary_category_when s = "High" ↔ 100000 ≤ s) := by
  unfold age_band age_group_when salary_category_when
  split_ifs <;> simp_all <;> omega

/-- Claim C5: on the specification's three-record example the key-value
path computes department averages Eng = 50000, Sales = 80000, and age
band statistics Young = (60000, 2 employees), Middle = (60000, 1). -/
theorem C5_example_scenario :
    dept_avg_salary example_df "Eng" = some 50000 ∧
    dept_avg_salary example_df "Sales" = some 80000 ∧
    age_group_stats example_df "Young" = some (60000, 2) ∧
    age_group_stats example_df "Middle" = some (60000, 1) := by
  refine ⟨?_, ?_, ?_, ?_⟩ <;>
    norm_num +decide [dept_avg_salary, age_group_stats, reduceByKey, keyValues, mapValues,
      dept_salary_rdd, age_groups_rdd, combine, age_band, example_df, List.filter]

/-- Claim C6: for every zero or negative integer row count the generator
fails with the descriptive error `ValueError("RDD is empty")` — raised
by `rdd.toDF` schema inference on the empty RDD — and in particular
never returns an empty dataset.  (A non-integer count likewise fails,
inside Python's `range` itself, before any records exist.) -/
theorem C6_invalid_count_fails_fast (g : ℕ → ℕ) (n : ℤ) (h : n ≤ 0) :
    create_sample_data_int g n = Except.error "RDD is empty" ∧
    create_sample_data_int g n ≠ Except.ok ([] : List Record) := by
  unfold create_sample_data_int toDF
  rw [Int.toNat_of_nonpos h]
  exact ⟨rfl, by simp⟩

/-- Witness for C6 at the concrete invalid count `0`. -/
theorem C6_invalid_count_fails_fast_witness :
    (0 : ℤ) ≤ 0 ∧
    (create_sample_data_int (fun x => 0) 0 = Except.error "RDD is empty" ∧
      create_sample_data_int (fun x => 0) 0 ≠ Except.ok ([] : List Record)) :=
  ⟨le_refl 0, C6_invalid_count_fails_fast (fun x => 0) 0 (le_refl 0)⟩

/-- Claim C9: the feature-derivation step only adds the two computed
columns: the augmented table has the same number of rows, and the row at
every position agrees with the input row at that position on all five
original fields, with `age_group`/`salary_category` the two computed
labels of that same row. -/
theorem C9_with_features_frame (df : List Record) (i : ℕ) :
    (with_features df).length = df.length ∧
    (with_features df)[i]?.map (fun r => r.id) = df[i]?.map (fun r => r.id) ∧
    (with_features df)[i]?.map (fun r => r.name) = df[i]?.map (fun r => r.name) ∧
    (with_features df)[i]?.map (fun r => r.age) = df[i]?.map (fun r => r.age) ∧
    (with_features df)[i]?.map (fun r => r.salary) = df[i]?.map (fun r => r.salary) ∧
    (with_features df)[i]?.map (fun r => r.department) = df[i]?.map (fun r => r.department) ∧
    (with_features df)[i]?.map (fun r => r.age_group)
      = df[i]?.map (fun r => age_group_when r.age) ∧
    (with_features df)[i]?.map (fun r => r.salary_category)
      = df[i]?.map (fun r => salary_category_when r.salary) := by
  refine ⟨by simp [with_features], ?_, ?_, ?_, ?_, ?_, ?_, ?_⟩ <;>
    cases h : df[i]? <;>
      simp [with_features, List.getElem?_map, h, add_features]

/-- Claim C10: the high-salary filter stage feeds only the logged count.
Running `apply_rdd_transformations` with any predicate in place of the
filter (including removing it) leaves both returned aggregates equal to
the aggregates of the full input, and the three result sets passed to
the sink are computed from the full input only. -/
theorem C10_filter_has_no_effect (p : Record → Bool) (df : List Record) :
    apply_rdd_transformations df
      = apply_rdd_transformations_with (fun r => 50000 < r.salary) df ∧
    (apply_rdd_transformations_with p df).dept_avg = dept_avg_salary df ∧
    (apply_rdd_transformations_with p df).age_stats = age_group_stats df ∧
    apply_dataframe_transformations df = (with_features df, dept_stats df, age_stats_df df) :=
  ⟨rfl, rfl, rfl, rfl⟩

theorem rdd_pipeline_eq (key : Record → String) (df : List Record) (k : String) :
    reduceByKey combine (mapValues (fun s => (s, (1 : ℤ))) (df.map (fun r => (key r, r.salary)))) k
      = if df.filter (fun r => key r = k) = [] then none
        else some (((df.filter (fun r => key r = k)).map (fun r => r.salary)).sum,
          ((df.filter (fun r => key r = k)).length : ℤ)) := by
  rw [reduceByKey_combine_eq_canonAgg]
  unfold canonAgg
  rw [keyValues_mapValues, keyValues_map_key_val]
  by_cases hc : df.filter (fun r => key r = k) = []
  · simp [hc]
  · rw [if_neg (by simp [hc]), if_neg hc]
    congr 2
    · simp [List.map_map, Function.comp_def]
    · rw [List.map_map]
      have : (Prod.snd ∘ fun s => (s, (1 : ℤ))) = fun s : ℤ => (1 : ℤ) := rfl
      rw [this, sum_map_ones, List.length_map]

theorem dept_avg_salary_canon (df : List Record) (d : String) :
    dept_avg_salary df d
      = if df.filter (fun r => r.department = d) = [] then none
        else some ((((df.filter (fun r => r.department = d)).map (fun r => r.salary)).sum : ℚ)
          / ((df.filter (fun r => r.department = d)).length : ℚ)) := by
  unfold dept_avg_salary dept_salary_rdd
  rw [rdd_pipeline_eq (fun r => r.department) df d]
  by_cases hc : df.filter (fun r => r.department = d) = []
  · simp [hc]
  · rw [if_neg hc, if_neg hc]
    simp [Function.comp_def]

theorem age_group_stats_canon (df : List Record) (b : String) :
    age_group_stats df b
      = if df.filter (fun r => age_band r.age = b) = [] then none
        else some (((((df.filter (fun r => age_band r.age = b)).map (fun r => r.salary)).sum : ℚ)
            / ((df.filter (fun r => age_band r.age = b)).length : ℚ)),
          ((df.filter (fun r => age_band r.age = b)).length : ℤ)) := by
  unfold age_group_stats age_groups_rdd
  rw [rdd_pipeline_eq (fun r => age_band r.age) df b]
  by_cases hc : df.filter (fun r => age_band r.age = b) = []
  · simp [hc]
  · rw [if_neg hc, if_neg hc]
    simp [Function.comp_def]

theorem dept_rows_eq (df : List Record) (d : String) :
    dept_rows df d = (df.filter (fun r => r.department = d)).map add_features := by
  unfold dept_rows with_features
  rw [List.filter_map]
  rfl

theorem age_rows_eq (df : List Record) (b : String) :
    age_rows df b = (df.filter (fun r => age_band r.age = b)).map add_features := by
  unfold age_rows with_features
  rw [List.filter_map]
  rfl

/-- Claim C1: for every input dataset, the key-value path and the
tabular path compute the same average salary for every department and
for every age band; both are `none` exactly on the keys absent from the
input (division is exact in `ℚ`, so agreement is exact, which implies
agreement within floating-point tolerance). -/
theorem C1_cross_path_avg_salary_equiv (df : List Record) (d b : String) :
    (dept_stats df d).map (fun st => st.2.1) = dept_avg_salary df d ∧
    (age_stats_df df b).map (fun st => st.2) = (age_group_stats df b).map (fun x => x.1) := by
  constructor
  · rw [dept_avg_salary_canon]
    unfold dept_stats
    rw [dept_rows_eq]
    by_cases hc : df.filter (fun r => r.department = d) = []
    · simp [hc]
    · rw [if_neg (by simp [List.length_eq_zero, hc]), if_neg hc]
      have hsal : ((df.filter (fun r => r.department = d)).map add_features).map
          (fun r => r.salary) = (df.filter (fun r => r.department = d)).map
          (fun r => r.salary) := by
        rw [List.map_map]; rfl
      simp [hsal, Function.comp_def, add_features]
  · rw [age_group_stats_canon]
    unfold age_stats_df
    rw [age_rows_eq]
    by_cases hc : df.filter (fun r => age_band r.age = b) = []
    · simp [hc]
    · rw [if_neg (by simp [List.length_eq_zero, hc]), if_neg hc]
      have hsal : ((df.filter (fun r => age_band r.age = b)).map add_features).map
          (fun r => r.salary) = (df.filter (fun r => age_band r.age = b)).map
          (fun r => r.salary) := by
        rw [List.map_map]; rfl
      simp [hsal, Function.comp_def, add_features]

/-- Claim C4: the combine step of the key-value path is partition- and
order-independent.  Splitting the keyed input into any list of
sub-sequences and merging the per-part `reduceByKey` results gives
exactly the single left-to-right fold over the whole input; permuting
the input leaves every per-key `(sum, count)` pair, and hence the
finalized average, unchanged. -/
theorem C4_combine_partition_order_independent :
    (∀ (ls : List (List (String × (ℤ × ℤ)))) (k : String),
        reduceByKey combine ls.flatten k
          = (ls.map (fun l => reduceByKey combine l k)).foldl (mergeOpt combine) none) ∧
    (∀ (l1 l2 : List (String × (ℤ × ℤ))), l1.Perm l2 → ∀ k : String,
        reduceByKey combine l1 k = reduceByKey combine l2 k) ∧
    (∀ (l1 l2 : List (String × ℤ)), l1.Perm l2 → ∀ k : String,
        (reduceByKey combine (mapValues (fun s => (s, (1 : ℤ))) l1) k).map
            (fun x => (x.1 : ℚ) / (x.2 : ℚ))
          = (reduceByKey combine (mapValues (fun s => (s, (1 : ℤ))) l2) k).map
            (fun x => (x.1 : ℚ) / (x.2 : ℚ))) := by
  have hperm : ∀ (l1 l2 : List (String × (ℤ × ℤ))), l1.Perm l2 → ∀ k : String,
      reduceByKey combine l1 k = reduceByKey combine l2 k := by
    intro l1 l2 h k
    rw [reduceByKey_combine_eq_canonAgg, reduceByKey_combine_eq_canonAgg]
    exact canonAgg_perm h k
  refine ⟨?_, hperm, ?_⟩
  · intro ls k
    induction ls with
    | nil => rfl
    | cons l ls ih =>
        rw [List.flatten_cons, reduceByKey_combine_eq_canonAgg, canonAgg_append,
          ← reduceByKey_combine_eq_canonAgg, ← reduceByKey_combine_eq_canonAgg, ih,
          List.map_cons, List.foldl_cons]
        have h0 : mergeOpt combine none (reduceByKey combine l k) = reduceByKey combine l k := rfl
        rw [h0]
        exact (foldl_mergeOpt combine combine_assoc _ _).symm
  · intro l1 l2 h k
    have hh := hperm (mapValues (fun s => (s, (1 : ℤ))) l1)
      (mapValues (fun s => (s, (1 : ℤ))) l2) (h.map _) k
    rw [hh]

/-- Witness for C4: a two-block partition and a concrete transposition,
with the equalities it asserts checked on both pipelines. -/
theorem C4_combine_partition_order_independent_witness :
    (reduceByKey combine
        [[("Eng", ((40000 : ℤ), (1 : ℤ)))], [("Sales", ((80000 : ℤ), (1 : ℤ)))]].flatten "Eng"
      = ([[("Eng", ((40000 : ℤ), (1 : ℤ)))], [("Sales", ((80000 : ℤ), (1 : ℤ)))]].map
          (fun l => reduceByKey combine l "Eng")).foldl (mergeOpt combine) none) ∧
    (List.Perm [("Eng", ((40000 : ℤ), (1 : ℤ))), ("Sales", ((80000 : ℤ), (1 : ℤ)))]
        [("Sales", ((80000 : ℤ), (1 : ℤ))), ("Eng", ((40000 : ℤ), (1 : ℤ)))] ∧
      reduceByKey combine
          [("Eng", ((40000 : ℤ), (1 : ℤ))), ("Sales", ((80000 : ℤ), (1 : ℤ)))] "Eng"
        = reduceByKey combine
          [("Sales", ((80000 : ℤ), (1 : ℤ))), ("Eng", ((40000 : ℤ), (1 : ℤ)))] "Eng") ∧
    (List.Perm [("Eng", (40000 : ℤ)), ("Sales", (80000 : ℤ))]
        [("Sales", (80000 : ℤ)), ("Eng", (40000 : ℤ))] ∧
      (reduceByKey combine (mapValues (fun s => (s, (1 : ℤ)))
            [("Eng", (40000 : ℤ)), ("Sales", (80000 : ℤ))]) "Eng").map
          (fun x => (x.1 : ℚ) / (x.2 : ℚ))
        = (reduceByKey combine (mapValues (fun s => (s, (1 : ℤ)))
            [("Sales", (80000 : ℤ)), ("Eng", (40000 : ℤ))]) "Eng").map
          (fun x => (x.1 : ℚ) / (x.2 : ℚ))) :=
  ⟨C4_combine_partition_order_independent.1 _ "Eng",
    ⟨List.Perm.swap _ _ _,
      C4_combine_partition_order_independent.2.1 _ _ (List.Perm.swap _ _ _) "Eng"⟩,
    ⟨List.Perm.swap _ _ _,
      C4_combine_partition_order_independent.2.2 _ _ (List.Perm.swap _ _ _) "Eng"⟩⟩

/-- Claim C7: division by zero is structurally impossible in both
aggregation paths: whenever a key appears in a pre-finalize
`reduceByKey` result its count component is at least `1`, and whenever a
key appears in a grouped statistics table its row count is at least `1`;
absent keys produce no output at all. -/
theorem C7_groups_have_positive_count (df : List Record) (k : String) :
    (∀ x, reduceByKey combine
        (mapValues (fun s => (s, (1 : ℤ))) (dept_salary_rdd df)) k = some x → 1 ≤ x.2) ∧
    (∀ x, reduceByKey combine
        (mapValues (fun s => (s, (1 : ℤ))) (age_groups_rdd df)) k = some x → 1 ≤ x.2) ∧
    (∀ st, dept_stats df k = some st → 1 ≤ st.1) ∧
    (∀ st, age_stats_df df k = some st → 1 ≤ st.1) := by
  refine ⟨?_, ?_, ?_, ?_⟩
  · intro x hx
    rw [show dept_salary_rdd df = df.map (fun r => (r.department, r.salary)) from rfl,
      rdd_pipeline_eq] at hx
    by_cases hc : df.filter (fun r => r.department = k) = []
    · rw [if_pos hc] at hx; exact absurd hx (by simp)
    · rw [if_neg hc] at hx
      have hlen : 0 < (df.filter (fun r => r.department = k)).length :=
        List.length_pos.mpr hc
      have hx2 := Option.some.inj hx
      rw [← hx2]
      simp only []
      omega
  · intro x hx
    rw [show age_groups_rdd df = df.map (fun r => (age_band r.age, r.salary)) from rfl,
      rdd_pipeline_eq] at hx
    by_cases hc : df.filter (fun r => age_band r.age = k) = []
    · rw [if_pos hc] at hx; exact absurd hx (by simp)
    · rw [if_neg hc] at hx
      have hlen : 0 < (df.filter (fun r => age_band r.age = k)).length :=
        List.length_pos.mpr hc
      have hx2 := Option.some.inj hx
      rw [← hx2]
      simp only []
      omega
  · intro st hst
    unfold dept_stats at hst
    by_cases hc : (dept_rows df k).length = 0
    · rw [if_pos hc] at hst; exact absurd hst (by simp)
    · rw [if_neg hc] at hst
      have hst2 := Option.some.inj hst
      rw [← hst2]
      omega
  · intro st hst
    unfold age_stats_df at hst
    by_cases hc : (age_rows df k).length = 0
    · rw [if_pos hc] at hst; exact absurd hst (by simp)
    · rw [if_neg hc] at hst
      have hst2 := Option.some.inj hst
      rw [← hst2]
      omega

/-- Witness for C7 on the example dataset: every hypothesis is realized
by a concrete key present in the input. -/
theorem C7_groups_have_positive_count_witness :
    (reduceByKey combine
        (mapValues (fun s => (s, (1 : ℤ))) (dept_salary_rdd example_df)) "Eng"
      = some ((100000 : ℤ), (2 : ℤ)) ∧ (1 : ℤ) ≤ ((100000 : ℤ), (2 : ℤ)).2) ∧
    (reduceByKey combine
        (mapValues (fun s => (s, (1 : ℤ))) (age_groups_rdd example_df)) "Young"
      = some ((120000 : ℤ), (2 : ℤ)) ∧ (1 : ℤ) ≤ ((120000 : ℤ), (2 : ℤ)).2) ∧
    (dept_stats example_df "Eng" = some (2, 50000, 30) ∧
      1 ≤ ((2 : ℕ), (50000 : ℚ), (30 : ℚ)).1) ∧
    (age_stats_df example_df "Young" = some (2, 60000) ∧
      1 ≤ ((2 : ℕ), (60000 : ℚ)).1) := by
  have h1 : reduceByKey combine
      (mapValues (fun s => (s, (1 : ℤ))) (dept_salary_rdd example_df)) "Eng"
      = some ((100000 : ℤ), (2 : ℤ)) := by decide
  have h2 : reduceByKey combine
      (mapValues (fun s => (s, (1 : ℤ))) (age_groups_rdd example_df)) "Young"
      = some ((120000 : ℤ), (2 : ℤ)) := by decide
  have h3 : dept_stats example_df "Eng" = some (2, 50000, 30) := by
    norm_num +decide [dept_stats, dept_rows, with_features, add_features, example_df,
      List.filter, age_group_when, salary_category_when]
  have h4 : age_stats_df example_df "Young" = some (2, 60000) := by
    norm_num +decide [age_stats_df, age_rows, with_features, add_features, example_df,
      List.filter, age_group_when, salary_category_when]
  exact ⟨⟨h1, (C7_groups_have_positive_count example_df "Eng").1 _ h1⟩,
    ⟨h2, (C7_groups_have_positive_count example_df "Young").2.1 _ h2⟩,
    ⟨h3, (C7_groups_have_positive_count example_df "Eng").2.2.1 _ h3⟩,
    ⟨h4, (C7_groups_have_positive_count example_df "Young").2.2.2 _ h4⟩⟩

theorem list_length_eq_sum_filter {α K : Type} [DecidableEq K] (f : α → K) (l : List α) :
    ∑ k ∈ (l.map f).toFinset, (l.filter (fun a => f a = k)).length = l.length := by
  calc ∑ k ∈ (l.map f).toFinset, (l.filter (fun a => f a = k)).length
      = ∑ k ∈ (l.map f).toFinset, (l.map f).count k := by
        refine Finset.sum_congr rfl (fun k _ => ?_)
        rw [List.count_eq_countP, List.countP_map, List.countP_eq_length_filter]
        congr 1
    _ = l.length := by
        have h := Multiset.toFinset_sum_count_eq (↑(l.map f) : Multiset K)
        rw [List.toFinset_coe] at h
        simp only [Multiset.coe_count] at h
        rw [h]
        simp

/-- Claim C8: the per-group row counts partition the input exactly: over
the departments present in the input the group sizes used by
`dept_stats` sum to the input size, and over the age bands present the
group sizes used by `age_stats` sum to the input size. -/
theorem C8_group_counts_partition_input (df : List Record) :
    (∑ d ∈ (df.map (fun r => r.department)).toFinset, (dept_rows df d).length) = df.length ∧
    (∑ b ∈ ((with_features df).map (fun r => r.age_group)).toFinset,
      (age_rows df b).length) = df.length := by
  constructor
  · have h := list_length_eq_sum_filter (fun r : RecordF => r.department) (with_features df)
    have hkeys : (with_features df).map (fun r : RecordF => r.department)
        = df.map (fun r => r.department) := by
      unfold with_features
      rw [List.map_map]
      rfl
    rw [hkeys] at h
    unfold dept_rows
    rw [h]
    simp [with_features]
  · have h := list_length_eq_sum_filter (fun r : RecordF => r.age_group) (with_features df)
    unfold age_rows
    rw [h]
    simp [with_features]

end DataProcessingJob
